import Mathlib

/-!
Shallow embedding of the scroll-coordinated UI engine of `js/post.js`
(the `$posts` object of a static blog theme): the debounced scroll
dispatcher (`Scroller.prototype.bindScrollEvent`), the topic-bar visual
state machine (`showTopic`), and the table-of-contents active-section
tracker (`catalogueHighlight`).

Scroll offsets, element offsets and viewport heights are integers
(pixel values); CSS class membership on the topic-bar element is a
record of Booleans, one per class the code toggles; the TOC pass is a
fold over the resolved heading list carrying the loop-local
`activeTopicEl` together with the DOM state it mutates (which TOC link
holds the active class, and the TOC panel scroll position).
-/

/-! ## ScrollBatcher (`Scroller.prototype.bindScrollEvent`, lines 7-27)

A raw scroll notification is a pair `(time, pageYOffset)`. The JS
listener body declares `var wait = false` *inside* the handler, so
`wait` is a fresh local on every invocation: the `if (wait) return`
guard reads the `false` just assigned, the `wait = true` /
`wait = false` writes die with the invocation, and every notification
schedules its own `setTimeout` dispatch 150 time units later, carrying
the `beforeOffsetY` sampled at that notification. The model returns
the list of scheduled dispatches `(dispatchTime, beforeOffsetY)`. -/

def scrollListener (pending : List (Int × Int)) (ev : Int × Int) : List (Int × Int) :=
  let wait := false
  let beforeOffsetY := ev.2
  if wait then pending
  else pending ++ [(ev.1 + 150, beforeOffsetY)]

/-- Process a time-ordered list of raw scroll notifications through the
listener; the result is every dispatch the code schedules, in order. -/
def bindScrollEvent (events : List (Int × Int)) : List (Int × Int) :=
  events.foldl scrollListener []

/-! ## TopicBarController (`showTopic`, lines 31-98) -/

/-- The six CSS classes `showTopic` toggles on the `#postTopic` element. -/
structure TopicClassList where
  isHiddenTopicBar : Bool
  immediatelyShow : Bool
  isSwitchPostTitle : Bool
  isShowPostTitle : Bool
  isShowScrollToTopTips : Bool
  isFlashScrollToTopTips : Bool
deriving DecidableEq, Repr

/-- Number of markers present on the topic element. -/
def markerCount (s : TopicClassList) : Nat :=
  s.isHiddenTopicBar.toNat + s.immediatelyShow.toNat + s.isSwitchPostTitle.toNat
    + s.isShowPostTitle.toNat + s.isShowScrollToTopTips.toNat
    + s.isFlashScrollToTopTips.toNat

def allOffTopic : TopicClassList := ⟨false, false, false, false, false, false⟩

def hiddenState : TopicClassList := ⟨true, false, false, false, false, false⟩

def immState : TopicClassList := ⟨false, true, false, false, false, false⟩

def switchState : TopicClassList := ⟨false, false, true, false, false, false⟩

def showState : TopicClassList := ⟨false, false, false, true, false, false⟩

def tipState : TopicClassList := ⟨false, false, false, false, true, false⟩

def flashState : TopicClassList := ⟨false, false, false, false, false, true⟩

/-- The one reachable two-marker class set: the flash tip together with
`immediately-show`. -/
def flashImmState : TopicClassList := ⟨false, true, false, false, false, true⟩

/-- `$posts.showTopic` (lines 31-98), as a function of the values the
code reads from the DOM: `pageYOffset` (current scroll offset),
`threshold` (`postTitle.offsetTop` plus its rendered height),
`beforeOffsetY` (the snapshot's pre-batch offset) and `innerHeight`
(viewport height), acting on the topic element's class set.
`classList.remove`/`add` set the corresponding field; branch structure
follows the source line by line (the final `else` mirrors the source's
fall-through when `beforeOffsetY - pageYOffset !== 0` fails, which over
the integers is unreachable given the two preceding tests). -/
def showTopic (pageYOffset threshold beforeOffsetY innerHeight : Int)
    (topicEl : TopicClassList) : TopicClassList :=
  if pageYOffset > threshold then
    let s1 := { topicEl with isHiddenTopicBar := false }
    if beforeOffsetY - pageYOffset = 0 then
      let s2 := { s1 with isSwitchPostTitle := false, isShowPostTitle := false,
                          immediatelyShow := false }
      if s2.isShowScrollToTopTips then
        { s2 with isShowScrollToTopTips := false, isFlashScrollToTopTips := true }
      else
        { s2 with immediatelyShow := true }
    else if beforeOffsetY - pageYOffset > 0 then
      if pageYOffset > innerHeight * 2 then
        { s1 with immediatelyShow := false, isShowPostTitle := false,
                  isSwitchPostTitle := false, isFlashScrollToTopTips := false,
                  isShowScrollToTopTips := true }
      else
        { s1 with immediatelyShow := false, isShowPostTitle := false,
                  isShowScrollToTopTips := false, isFlashScrollToTopTips := false,
                  isSwitchPostTitle := true }
    else if beforeOffsetY - pageYOffset ≠ 0 then
      { s1 with immediatelyShow := false, isSwitchPostTitle := false,
                isShowScrollToTopTips := false, isFlashScrollToTopTips := false,
                isShowPostTitle := true }
    else s1
  else
    { topicEl with isFlashScrollToTopTips := false, isShowScrollToTopTips := false,
                   isSwitchPostTitle := false, isShowPostTitle := false,
                   immediatelyShow := false, isHiddenTopicBar := true }

/-! ## TocTracker (`catalogueHighlight`, lines 99-151)

The returned closure runs once per snapshot. It re-resolves every TOC
link's target heading (`document.getElementById`, `none` when the id
is not in the document), then scans the resolved list with a loop-local
`activeTopicEl`, mutating two pieces of DOM state on every candidate
iteration: which TOC link carries the `is-active` class, and the TOC
panel's scroll position. -/

/-- The fixed spacing constant of the TOC scan (`var spacing = 60`). -/
def spacing : Int := 60

/-- One TOC heading as the pass reads it: the heading element's
`offsetTop` in the document, and the matching TOC link's `offsetTop`
inside the TOC panel. -/
structure TocEntry where
  offsetTop : Int
  linkOffset : Int
deriving DecidableEq, Repr

/-- The DOM state the pass mutates: the index of the TOC link holding
the `is-active` class (at most one), and the panel's scroll position. -/
structure TocState where
  activeIdx : Option Nat
  panelScroll : Int
deriving DecidableEq, Repr

/-- The DOM state written by a candidate iteration whose
`activeTopicEl` is the indexed entry `p` (lines 132-148): the active
class moves to `p`'s link, and the panel is scrolled to
`linkOffset + 100 - panelHeight` when `linkOffset >= panelHeight -
spacing`, else reset to `0`. `H` is the panel's rendered height. -/
def stFor (H : Int) (p : Nat × TocEntry) : TocState :=
  { activeIdx := some p.1,
    panelScroll :=
      if p.2.linkOffset ≥ H - spacing then p.2.linkOffset + 100 - H else 0 }

/-- One iteration of the scan (lines 118-149) for a resolved heading
`currentTopic` at loop index `i`: skip when `offsetTop > scrollTop +
spacing / 2`; otherwise update `activeTopicEl` (first candidate, or
hysteresis test `offsetTop + spacing >= active.offsetTop - spacing`)
and rewrite the DOM state for the updated active entry. -/
def catalogueStepPure (scrollTop H : Int) (acc : Option (Nat × TocEntry) × TocState)
    (i : Nat) (currentTopic : TocEntry) : Option (Nat × TocEntry) × TocState :=
  if currentTopic.offsetTop > scrollTop + spacing / 2 then acc
  else
    let act :=
      match acc.1 with
      | none => (i, currentTopic)
      | some p =>
          if currentTopic.offsetTop + spacing ≥ p.2.offsetTop - spacing then
            (i, currentTopic)
          else p
    (some act, stFor H act)

/-- The scan loop over resolved headings, tracking the loop index. -/
def catalogueGo (scrollTop H : Int) :
    Nat → Option (Nat × TocEntry) × TocState → List TocEntry →
      Option (Nat × TocEntry) × TocState
  | _, acc, [] => acc
  | i, acc, e :: rest =>
      catalogueGo scrollTop H (i + 1) (catalogueStepPure scrollTop H acc i e) rest

/-- One full pass of the `catalogueHighlight` closure when every TOC
link's target heading resolves: `contentTocList` is the resolved
heading list in document order, `scrollTop` the scroll offset sampled
at the start of the pass, `H` the panel height, `s` the DOM state left
by earlier passes. Returns the final `activeTopicEl` (with its index)
and the final DOM state. -/
def catalogueHighlightPass (contentTocList : List TocEntry) (scrollTop H : Int)
    (s : TocState) : Option (Nat × TocEntry) × TocState :=
  catalogueGo scrollTop H 0 (none, s) contentTocList

/-- The scan loop over possibly-unresolved headings: `contentTocList`
holds `document.getElementById` results, so an entry is `none` when the
link's target id is not in the document. The iteration for a `none`
entry reads `currentTopic.offsetTop` on line 121 and faults (JS
`TypeError` on null); the error carries the loop state at the throw
point, and the rest of the list is not processed. -/
def catalogueGoE (scrollTop H : Int) :
    Nat → Option (Nat × TocEntry) × TocState → List (Option TocEntry) →
      Except (Option (Nat × TocEntry) × TocState) (Option (Nat × TocEntry) × TocState)
  | _, acc, [] => Except.ok acc
  | _, acc, none :: _ => Except.error acc
  | i, acc, some e :: rest =>
      catalogueGoE scrollTop H (i + 1) (catalogueStepPure scrollTop H acc i e) rest

/-- One full pass of the closure on a resolved list that may contain
missing headings; the literal source behavior, faulting at the first
`none`. -/
def catalogueHighlightPassE (contentTocList : List (Option TocEntry)) (scrollTop H : Int)
    (s : TocState) :
    Except (Option (Nat × TocEntry) × TocState) (Option (Nat × TocEntry) × TocState) :=
  catalogueGoE scrollTop H 0 (none, s) contentTocList

/-- Plain last-candidate selection, written from the spec's words for
comparison with the source's hysteresis scan: the chosen active heading
is the last heading in document order whose offset is at most
`scrollTop + spacing / 2`, with no hysteresis test. -/
def lastCandidateGo (scrollTop : Int) :
    Nat → Option (Nat × TocEntry) → List TocEntry → Option (Nat × TocEntry)
  | _, acc, [] => acc
  | i, acc, e :: rest =>
      lastCandidateGo scrollTop (i + 1)
        (if e.offsetTop ≤ scrollTop + spacing / 2 then some (i, e) else acc) rest

/-- The spec's plain selection over a whole heading list. -/
def specLastCandidate (contentTocList : List TocEntry) (scrollTop : Int) :
    Option (Nat × TocEntry) :=
  lastCandidateGo scrollTop 0 none contentTocList

/-! ## Helper lemmas about the TOC scan -/

/-- A heading beyond the candidate cutoff leaves the iteration's
accumulator untouched. -/
theorem catalogueStepPure_skip (scrollTop H : Int)
    (acc : Option (Nat × TocEntry) × TocState) (i : Nat) (e : TocEntry)
    (h : e.offsetTop > scrollTop + spacing / 2) :
    catalogueStepPure scrollTop H acc i e = acc := by
  rw [catalogueStepPure, if_pos h]

/-- The first candidate becomes the active entry. -/
theorem catalogueStepPure_first (scrollTop H : Int) (s : TocState) (i : Nat)
    (e : TocEntry) (h : ¬ e.offsetTop > scrollTop + spacing / 2) :
    catalogueStepPure scrollTop H (none, s) i e = (some (i, e), stFor H (i, e)) := by
  rw [catalogueStepPure, if_neg h]

/-- A later candidate passing the hysteresis test replaces the active
entry. -/
theorem catalogueStepPure_accept (scrollTop H : Int) (s : TocState) (i : Nat)
    (e : TocEntry) (p : Nat × TocEntry) (h : ¬ e.offsetTop > scrollTop + spacing / 2)
    (hacc : e.offsetTop + spacing ≥ p.2.offsetTop - spacing) :
    catalogueStepPure scrollTop H (some p, s) i e = (some (i, e), stFor H (i, e)) := by
  rw [catalogueStepPure, if_neg h]
  show (some (if e.offsetTop + spacing ≥ p.2.offsetTop - spacing then (i, e) else p),
      stFor H (if e.offsetTop + spacing ≥ p.2.offsetTop - spacing then (i, e) else p))
    = (some (i, e), stFor H (i, e))
  rw [if_pos hacc]

/-- A later candidate failing the hysteresis test keeps the active
entry, but still rewrites the DOM state for it. -/
theorem catalogueStepPure_reject (scrollTop H : Int) (s : TocState) (i : Nat)
    (e : TocEntry) (p : Nat × TocEntry) (h : ¬ e.offsetTop > scrollTop + spacing / 2)
    (hrej : ¬ e.offsetTop + spacing ≥ p.2.offsetTop - spacing) :
    catalogueStepPure scrollTop H (some p, s) i e = (some p, stFor H p) := by
  rw [catalogueStepPure, if_neg h]
  show (some (if e.offsetTop + spacing ≥ p.2.offsetTop - spacing then (i, e) else p),
      stFor H (if e.offsetTop + spacing ≥ p.2.offsetTop - spacing then (i, e) else p))
    = (some p, stFor H p)
  rw [if_neg hrej]

/-- The faulting pass agrees with the pure pass on lists where every
heading resolves. -/
theorem catalogueGoE_map_some (scrollTop H : Int) (l : List TocEntry) :
    ∀ i acc, catalogueGoE scrollTop H i acc (l.map some)
      = Except.ok (catalogueGo scrollTop H i acc l) := by
  induction l with
  | nil => intro i acc; rfl
  | cons e rest ih =>
      intro i acc
      simpa [catalogueGoE, catalogueGo] using ih (i + 1) (catalogueStepPure scrollTop H acc i e)

/-- A list whose headings all lie beyond the candidate cutoff leaves
the scan accumulator untouched. -/
theorem catalogueGo_skip_all (scrollTop H : Int) (l : List TocEntry)
    (h : ∀ e ∈ l, e.offsetTop > scrollTop + spacing / 2) :
    ∀ i acc, catalogueGo scrollTop H i acc l = acc := by
  induction l with
  | nil => intro i acc; rfl
  | cons e rest ih =>
      intro i acc
      have he : e.offsetTop > scrollTop + spacing / 2 := h e (by simp)
      have hrest : ∀ x ∈ rest, x.offsetTop > scrollTop + spacing / 2 := by
        intro x hx; exact h x (by simp [hx])
      simp [catalogueGo, catalogueStepPure, if_pos he, ih hrest]

/-- The chosen active entry never depends on the DOM state the pass
starts from. -/
theorem catalogueGo_fst_state_blind (scrollTop H : Int) (l : List TocEntry) :
    ∀ i act s1 s2, (catalogueGo scrollTop H i (act, s1) l).1
      = (catalogueGo scrollTop H i (act, s2) l).1 := by
  induction l with
  | nil => intro i act s1 s2; rfl
  | cons e rest ih =>
      intro i act s1 s2
      by_cases hskip : e.offsetTop > scrollTop + spacing / 2
      · simpa [catalogueGo, catalogueStepPure, if_pos hskip] using ih (i + 1) act s1 s2
      · simp [catalogueGo, catalogueStepPure, if_neg hskip]

/-- As soon as some heading is a candidate, the whole result of the
pass is independent of the DOM state it starts from. -/
theorem catalogueGo_candidate_state_indep (scrollTop H : Int) (l : List TocEntry)
    (h : ∃ e ∈ l, e.offsetTop ≤ scrollTop + spacing / 2) :
    ∀ i act s1 s2, catalogueGo scrollTop H i (act, s1) l
      = catalogueGo scrollTop H i (act, s2) l := by
  induction l with
  | nil => simp at h
  | cons e rest ih =>
      intro i act s1 s2
      by_cases hskip : e.offsetTop > scrollTop + spacing / 2
      · have hrest : ∃ x ∈ rest, x.offsetTop ≤ scrollTop + spacing / 2 := by
          obtain ⟨x, hx, hxle⟩ := h
          rcases List.mem_cons.mp hx with hxe | hxr
          · subst hxe; omega
          · exact ⟨x, hxr, hxle⟩
        simpa [catalogueGo, catalogueStepPure, if_pos hskip] using ih hrest (i + 1) act s1 s2
      · simp [catalogueGo, catalogueStepPure, if_neg hskip]

/-- Whenever the scan's accumulator keeps its DOM state in sync with
its active entry, the final DOM state is the one written for the final
active entry. -/
theorem catalogueGo_sync (scrollTop H : Int) (l : List TocEntry) :
    ∀ i act s, (∀ p, act = some p → s = stFor H p) →
      ∀ q, (catalogueGo scrollTop H i (act, s) l).1 = some q →
        (catalogueGo scrollTop H i (act, s) l).2 = stFor H q := by
  induction l with
  | nil =>
      intro i act s hsync q hq
      exact hsync q hq
  | cons e rest ih =>
      intro i act s hsync q hq
      by_cases hskip : e.offsetTop > scrollTop + spacing / 2
      · rw [catalogueGo, catalogueStepPure, if_pos hskip] at hq ⊢
        exact ih (i + 1) act s hsync q hq
      · rw [catalogueGo, catalogueStepPure, if_neg hskip] at hq ⊢
        exact ih (i + 1) _ _ (by intro p hp; rw [Option.some_inj] at hp; rw [hp]) q hq

/-- On heading lists whose offsets are nondecreasing in document
order, the hysteresis scan computes plain last-candidate selection:
whenever the current active entry's offset is below every remaining
heading's offset, the hysteresis test accepts every later candidate. -/
theorem catalogueGo_fst_sorted (scrollTop H : Int) (l : List TocEntry)
    (hsort : l.Pairwise (fun a b => a.offsetTop ≤ b.offsetTop)) :
    ∀ i act s, (∀ p, act = some p → ∀ c ∈ l, p.2.offsetTop ≤ c.offsetTop) →
      (catalogueGo scrollTop H i (act, s) l).1 = lastCandidateGo scrollTop i act l := by
  induction l with
  | nil => intro i act s _; rfl
  | cons e rest ih =>
      intro i act s hlow
      rw [List.pairwise_cons] at hsort
      by_cases hskip : e.offsetTop > scrollTop + spacing / 2
      · rw [catalogueGo, catalogueStepPure, if_pos hskip, lastCandidateGo,
          if_neg (by omega)]
        refine ih hsort.2 (i + 1) act s ?_
        intro p hp c hc
        exact hlow p hp c (by simp [hc])
      · have hnext : ∀ q, some (i, e) = some q → ∀ c ∈ rest, q.2.offsetTop ≤ c.offsetTop := by
          intro q hq c hc
          rw [Option.some_inj] at hq
          rw [← hq]
          exact hsort.1 c hc
        rw [lastCandidateGo, if_pos (by omega)]
        cases act with
        | none =>
            rw [catalogueGo, catalogueStepPure_first scrollTop H s i e hskip]
            exact ih hsort.2 (i + 1) (some (i, e)) (stFor H (i, e)) hnext
        | some p =>
            have hpe : p.2.offsetTop ≤ e.offsetTop := hlow p rfl e (by simp)
            have hsp : spacing = 60 := rfl
            rw [catalogueGo, catalogueStepPure_accept scrollTop H s i e p hskip (by omega)]
            exact ih hsort.2 (i + 1) (some (i, e)) (stFor H (i, e)) hnext

/-- A resolved list containing a missing heading always faults. -/
theorem catalogueGoE_none_mem (scrollTop H : Int) (l : List (Option TocEntry))
    (h : none ∈ l) :
    ∀ i acc, ∃ f, catalogueGoE scrollTop H i acc l = Except.error f := by
  induction l with
  | nil => simp at h
  | cons x rest ih =>
      intro i acc
      cases x with
      | none => exact ⟨acc, rfl⟩
      | some e =>
          have hrest : none ∈ rest := by
            rcases List.mem_cons.mp h with hx | hx
            · exact absurd hx.symm (by simp)
            · exact hx
          exact ih hrest (i + 1) (catalogueStepPure scrollTop H acc i e)

/-- Every `showTopic` result is one of seven class sets: the six
singletons, or the flash tip together with `immediately-show`. -/
theorem showTopic_cases (o th pre vh : Int) (s : TopicClassList) :
    showTopic o th pre vh s = hiddenState ∨ showTopic o th pre vh s = immState ∨
      showTopic o th pre vh s = switchState ∨ showTopic o th pre vh s = showState ∨
      showTopic o th pre vh s = tipState ∨ showTopic o th pre vh s = flashState ∨
      showTopic o th pre vh s = flashImmState := by
  obtain ⟨f1, f2, f3, f4, f5, f6⟩ := s
  cases f5 <;> cases f6 <;>
    simp only [showTopic] <;>
    split_ifs <;>
    simp_all [hiddenState, immState, switchState, showState, tipState, flashState,
      flashImmState]

/-! ## Claims -/

/-- Claim C1, evaluation of the code at the failing input: two raw
scroll notifications at times 0 and 10 (offsets 100 and 250), both
inside one 150-time-unit quiet period after the first, produce two
scheduled dispatches — one per notification — and the second dispatch
carries its own sampled offset 250, not the first notification's
offset 100. The handler-local `wait` flag never drops a
notification. -/
theorem c1_dispatch_per_notification :
    bindScrollEvent [(0, 100), (10, 250)] = [(150, 100), (160, 250)]
      ∧ (bindScrollEvent [(0, 100), (10, 250)]).length = 2 := by
  exact ⟨rfl, rfl⟩

/-- Claim C2, counterexample: starting from the hidden topic bar, the
snapshot sequence (upward scroll far down the page, then two zero-delta
snapshots above the threshold) leaves two markers on the element —
`is-flash-scrollToTop-tips` and `immediately-show` — because the
zero-delta branch never removes the flash marker. -/
theorem c2_counterexample :
    markerCount (showTopic 300 100 300 100 (showTopic 300 100 300 100
        (showTopic 300 100 400 100 hiddenState))) = 2
      ∧ showTopic 300 100 300 100 (showTopic 300 100 300 100
        (showTopic 300 100 400 100 hiddenState)) = flashImmState := by
  exact ⟨by decide, by decide⟩

/-- Claim C2, amended: after every `showTopic` transition the marker
set has size at most two, not one; the only possible two-marker result
is the pair `is-flash-scrollToTop-tips` plus `immediately-show`
(reached when a zero-delta snapshot above the threshold finds the
flash marker set and the tip marker clear). -/
theorem c2_marker_bound (o th pre vh : Int) (s : TopicClassList) :
    markerCount (showTopic o th pre vh s) ≤ 2 ∧
      (markerCount (showTopic o th pre vh s) = 2 →
        showTopic o th pre vh s = flashImmState) := by
  rcases showTopic_cases o th pre vh s with h | h | h | h | h | h | h <;> rw [h] <;>
    exact ⟨by decide, fun h2 => by first | rfl | exact absurd h2 (by decide)⟩

/-- Claim C2, witness for the amended statement at a concrete input. -/
theorem c2_witness :
    showTopic 300 100 300 100 flashState = flashImmState :=
  (c2_marker_bound 300 100 300 100 flashState).2 (by decide)

/-- Claim C3, counterexample: a pass whose single TOC entry's target
id resolves to no element faults at the `offsetTop` read instead of
treating the entry as absent and completing. -/
theorem c3_counterexample :
    catalogueHighlightPassE [none] 1000 300 ⟨none, 0⟩
      = Except.error (none, ⟨none, 0⟩) := rfl

/-- Claim C3, amended: every TOC computation pass in which some link's
target heading id resolves to no element faults when reading the
missing heading's vertical offset; the entry is not skipped and the
pass does not complete. -/
theorem c3_missing_heading_faults (contentTocList : List (Option TocEntry))
    (scrollTop H : Int) (s : TocState) (h : none ∈ contentTocList) :
    ∃ f, catalogueHighlightPassE contentTocList scrollTop H s = Except.error f :=
  catalogueGoE_none_mem scrollTop H contentTocList h 0 (none, s)

/-- Claim C3, witness for the amended statement at a concrete input. -/
theorem c3_witness :
    ∃ f, catalogueHighlightPassE [some ⟨0, 0⟩, none] 1000 300 ⟨none, 0⟩
      = Except.error f :=
  c3_missing_heading_faults [some ⟨0, 0⟩, none] 1000 300 ⟨none, 0⟩ (by decide)

/-- Claim C4: for a snapshot with current offset above the threshold
and positive delta (scrolled up), the bar transitions to the
scroll-to-top-tip state when the current offset exceeds twice the
viewport height, and to the switching state otherwise. -/
theorem c4_upward_scroll (o th pre vh : Int) (s : TopicClassList)
    (h1 : o > th) (h2 : pre - o > 0) :
    (o > vh * 2 → showTopic o th pre vh s = tipState) ∧
      (o ≤ vh * 2 → showTopic o th pre vh s = switchState) := by
  obtain ⟨f1, f2, f3, f4, f5, f6⟩ := s
  constructor <;>
    · intro h3
      simp only [showTopic]
      split_ifs <;> simp_all [tipState, switchState] <;> omega

/-- Claim C4, witness at concrete inputs for both implications. -/
theorem c4_witness :
    showTopic 300 100 400 100 allOffTopic = tipState
      ∧ showTopic 250 100 400 200 allOffTopic = switchState :=
  ⟨(c4_upward_scroll 300 100 400 100 allOffTopic (by decide) (by decide)).1 (by decide),
   (c4_upward_scroll 250 100 400 200 allOffTopic (by decide) (by decide)).2 (by decide)⟩

/-- Claim C5: for a snapshot with current offset above the threshold
and zero delta, if the tip marker is present then `showTopic` removes
it and adds the flash marker (leaving exactly the flash marker), and
does not re-apply the tip marker; if the tip marker is absent it adds
the `immediately-show` marker. -/
theorem c5_zero_delta (o th pre vh : Int) (s : TopicClassList)
    (h1 : o > th) (h2 : pre - o = 0) :
    (s.isShowScrollToTopTips = true → showTopic o th pre vh s = flashState) ∧
      (s.isShowScrollToTopTips = false →
        (showTopic o th pre vh s).immediatelyShow = true ∧
          (showTopic o th pre vh s).isShowScrollToTopTips = false) := by
  obtain ⟨f1, f2, f3, f4, f5, f6⟩ := s
  cases f5 <;>
    simp only [showTopic] <;>
    split_ifs <;> simp_all [flashState]

/-- Claim C5, witness at concrete inputs for both implications. -/
theorem c5_witness :
    showTopic 300 100 300 100 tipState = flashState
      ∧ (showTopic 300 100 300 100 allOffTopic).immediatelyShow = true :=
  ⟨(c5_zero_delta 300 100 300 100 tipState (by decide) (by decide)).1 (by decide),
   ((c5_zero_delta 300 100 300 100 allOffTopic (by decide) (by decide)).2 (by decide)).1⟩

/-- Claim C6: with three headings at offsets 0, 800 and 1600, spacing
60 and scroll offset 850, the pass selects the heading at 800: the
heading at 1600 exceeds the candidate cutoff 850 + 30, and 800
replaces 0 under the hysteresis test 800 + 60 ≥ 0 − 60. -/
theorem c6_end_to_end :
    (catalogueHighlightPass [⟨0, 0⟩, ⟨800, 30⟩, ⟨1600, 60⟩] 850 500 ⟨none, 0⟩).1
        = some (1, ⟨800, 30⟩)
      ∧ (1600 : Int) > 850 + spacing / 2
      ∧ (800 : Int) + spacing ≥ (0 : Int) - spacing := by
  exact ⟨by decide, by decide, by decide⟩

/-- Claim C7, counterexample: with the active link's panel offset
exactly equal to panel height minus spacing (offset 0, height 60), the
code scrolls the panel to 40, while the claim's strict "exceeds"
reading demands a reset to 0. -/
theorem c7_counterexample :
    (catalogueHighlightPass [⟨0, 0⟩] 0 60 ⟨none, 0⟩).2.panelScroll = 40
      ∧ ¬ ((0 : Int) > 60 - spacing) ∧ (40 : Int) ≠ 0 := by
  exact ⟨by decide, by decide, by decide⟩

/-- Claim C7, amended: for every pass that selects an active link, if
the link's panel offset is at least (not strictly above) the panel
height minus spacing, the panel scroll target is
`linkOffset + 100 − panelHeight`; if it is strictly below, the panel
scroll resets to 0. -/
theorem c7_panel_scroll (l : List TocEntry) (scrollTop H : Int) (s : TocState)
    (p : Nat × TocEntry)
    (h : (catalogueHighlightPass l scrollTop H s).1 = some p) :
    (p.2.linkOffset ≥ H - spacing →
        (catalogueHighlightPass l scrollTop H s).2.panelScroll
          = p.2.linkOffset + 100 - H) ∧
      (p.2.linkOffset < H - spacing →
        (catalogueHighlightPass l scrollTop H s).2.panelScroll = 0) := by
  have h2 : (catalogueHighlightPass l scrollTop H s).2 = stFor H p :=
    catalogueGo_sync scrollTop H l 0 none s (fun q hq => absurd hq (by simp)) p h
  rw [h2]
  simp only [stFor]
  constructor
  · intro h3; rw [if_pos h3]
  · intro h3; rw [if_neg (by omega)]

/-- Claim C7, witness for the amended statement at a concrete input. -/
theorem c7_witness :
    (catalogueHighlightPass [⟨0, 100⟩] 0 60 ⟨none, 0⟩).2.panelScroll = 140 :=
  (c7_panel_scroll [⟨0, 100⟩] 0 60 ⟨none, 0⟩ (0, ⟨0, 100⟩) (by decide)).1 (by decide)

/-- Claim C8: the TOC pass is idempotent with respect to the DOM state
it produces — running it again with the same headings, scroll offset
and panel height reproduces the same state — and its chosen active
entry does not depend on the marker state left by previous passes. -/
theorem c8_pass_idempotent (l : List TocEntry) (scrollTop H : Int) (s s2 : TocState) :
    catalogueHighlightPass l scrollTop H ((catalogueHighlightPass l scrollTop H s).2)
        = catalogueHighlightPass l scrollTop H s
      ∧ (catalogueHighlightPass l scrollTop H s).1
        = (catalogueHighlightPass l scrollTop H s2).1 := by
  constructor
  · by_cases hc : ∃ e ∈ l, e.offsetTop ≤ scrollTop + spacing / 2
    · exact catalogueGo_candidate_state_indep scrollTop H l hc 0 none _ s
    · push_neg at hc
      have h1 : catalogueHighlightPass l scrollTop H s = (none, s) :=
        catalogueGo_skip_all scrollTop H l (fun e he => hc e he) 0 (none, s)
      rw [h1]
      exact h1
  · exact catalogueGo_fst_state_blind scrollTop H l 0 none s s2

/-- Claim C9: a pass in which every heading's offset exceeds the
candidate cutoff `scrollOffset + spacing / 2` changes nothing: the
previously active link and the panel scroll position persist
unchanged. -/
theorem c9_no_candidate (l : List TocEntry) (scrollTop H : Int) (s : TocState)
    (h : ∀ e ∈ l, e.offsetTop > scrollTop + spacing / 2) :
    catalogueHighlightPass l scrollTop H s = (none, s) :=
  catalogueGo_skip_all scrollTop H l h 0 (none, s)

/-- Claim C9, witness at a concrete input. -/
theorem c9_witness :
    catalogueHighlightPass [⟨100, 0⟩] 0 500 ⟨some 5, 7⟩ = (none, ⟨some 5, 7⟩) :=
  c9_no_candidate [⟨100, 0⟩] 0 500 ⟨some 5, 7⟩ (by decide)

/-- Claim C10: on heading lists whose offsets are nondecreasing in
document order, the hysteresis scan is plain last-candidate selection:
the chosen active entry is exactly the last heading with offset at
most `scrollOffset + spacing / 2`. -/
theorem c10_sorted_last_candidate (l : List TocEntry) (scrollTop H : Int) (s : TocState)
    (hsort : l.Pairwise (fun a b => a.offsetTop ≤ b.offsetTop)) :
    (catalogueHighlightPass l scrollTop H s).1 = specLastCandidate l scrollTop :=
  catalogueGo_fst_sorted scrollTop H l hsort 0 none s (fun p hp => absurd hp (by simp))

/-- Claim C10, witness at a concrete sorted input. -/
theorem c10_witness :
    (catalogueHighlightPass [⟨0, 0⟩, ⟨800, 30⟩] 850 500 ⟨none, 0⟩).1
      = specLastCandidate [⟨0, 0⟩, ⟨800, 30⟩] 850 :=
  c10_sorted_last_candidate [⟨0, 0⟩, ⟨800, 30⟩] 850 500 ⟨none, 0⟩ (by decide)
